import Mathlib

/-!
Verification of the `people-detector` Viam sensor component
(`src/models/people_detector.py`).

The development shallowly embeds the protobuf attribute map
(`config.attributes.fields`), the class methods `validate_config`,
`reconfigure`, `get_readings`, `do_command` and `get_geometries` of
`PeopleDetector`, and proves properties of the embedded functions.
-/

namespace PeopleDetector

/-- A protobuf `Value` (from `google.protobuf.struct_pb2`), as stored in
`config.attributes.fields`.  Its `kind` is a oneof over null, number,
string, bool, struct and list values. -/
inductive ProtoValue where
  | nullValue : ProtoValue
  | numberValue (n : ℚ) : ProtoValue
  | stringValue (s : String) : ProtoValue
  | boolValue (b : Bool) : ProtoValue
  | structValue (fields : List (String × ProtoValue)) : ProtoValue
  | listValue (elems : List ProtoValue) : ProtoValue

/-- Python `value.HasField ("string_value")`: true iff the oneof kind is
`string_value`. -/
def ProtoValue.hasStringValue : ProtoValue → Bool
  | .stringValue _ => true
  | _ => false

/-- Python `value.HasField ("number_value")`: true iff the oneof kind is
`number_value`. -/
def ProtoValue.hasNumberValue : ProtoValue → Bool
  | .numberValue _ => true
  | _ => false

/-- Python `value.string_value`: the held string, or the proto3 default
`""` when the kind is not `string_value`. -/
def ProtoValue.string_value : ProtoValue → String
  | .stringValue s => s
  | _ => ""

/-- Python `value.number_value`: the held number, or the proto3 default
`0` when the kind is not `number_value`. -/
def ProtoValue.number_value : ProtoValue → ℚ
  | .numberValue n => n
  | _ => 0

/-- The attribute map `config.attributes.fields`: a protobuf map from
attribute name to `Value`, embedded as an association list (protobuf map
keys are unique; lookups take the first binding). -/
def Fields : Type := List (String × ProtoValue)

/-- Python `field in fields` (protobuf map membership). -/
def Fields.contains (fields : Fields) (k : String) : Bool :=
  (List.lookup k fields).isSome

/-- Python `fields.get (k)`: `some` value when present, `none` otherwise
(does not insert). -/
def Fields.get? (fields : Fields) (k : String) : Option ProtoValue :=
  List.lookup k fields

/-- Python `fields[k]` on a protobuf message map: the stored value when
present; when absent the map inserts and returns a default `Value`
(no oneof kind set, observationally equal to a null value for every
accessor this component uses). -/
def Fields.item (fields : Fields) (k : String) : ProtoValue :=
  (List.lookup k fields).getD .nullValue

/-- The `ValueError`s raised by `PeopleDetector.validate_config`, one
constructor per distinct raise site. -/
inductive ValidationError where
  | missingRequired (field : String)
  | mustBeString (field : String)
  | confidenceMustBeFloat : ValidationError
  | confidenceOutOfRange : ValidationError
deriving DecidableEq, Repr

/-- The exact Python exception message of each `ValueError`. -/
def ValidationError.message : ValidationError → String
  | .missingRequired f => "missing required " ++ f ++ " attribute"
  | .mustBeString f => f ++ " must be a string"
  | .confidenceMustBeFloat => "confidence_value must be a float"
  | .confidenceOutOfRange => "confidence_value must be between 0 and 1"

/-- The spec's `MissingFieldError` class: a required attribute is absent. -/
def ValidationError.isMissingFieldError : ValidationError → Bool
  | .missingRequired _ => true
  | _ => false

/-- The spec's `TypeMismatchError` class: an attribute has the wrong
value type. -/
def ValidationError.isTypeMismatchError : ValidationError → Bool
  | .mustBeString _ => true
  | .confidenceMustBeFloat => true
  | _ => false

/-- The spec's `RangeError` class: `confidence_value` outside `[0, 1]`. -/
def ValidationError.isRangeError : ValidationError → Bool
  | .confidenceOutOfRange => true
  | _ => false

/-- The `for field in required_fields` loop of `validate_config`: checks
presence and string-typedness of each required field, in list order,
raising at the first failure. -/
def checkRequiredFields (fields : Fields) : List String → Except ValidationError Unit
  | [] => .ok ()
  | f :: rest =>
    if ¬ fields.contains f then .error (.missingRequired f)
    else if ¬ (fields.item f).hasStringValue then .error (.mustBeString f)
    else checkRequiredFields fields rest

/-- The optional-field block of `validate_config`: if `confidence_value`
is present, it must carry `number_value` and lie within `[0, 1]`. -/
def checkConfidenceValue (fields : Fields) : Except ValidationError Unit :=
  if fields.contains "confidence_value" then
    if ¬ (fields.item "confidence_value").hasNumberValue then
      .error .confidenceMustBeFloat
    else
      let confidence_value := (fields.item "confidence_value").number_value
      if ¬ (0 ≤ confidence_value ∧ confidence_value ≤ 1) then
        .error .confidenceOutOfRange
      else .ok ()
  else .ok ()

/-- `PeopleDetector.validate_config`: validates the required fields
`camera_name` and `vision_service` (present, string-typed) and the
optional `confidence_value` (numeric, within `[0, 1]`), then returns the
dependency list `[vision_service, camera_name]`. -/
def validate_config (fields : Fields) : Except ValidationError (List String) := do
  checkRequiredFields fields ["camera_name", "vision_service"]
  checkConfidenceValue fields
  pure [(fields.item "vision_service").string_value,
        (fields.item "camera_name").string_value]

/-- The kind of Viam resource a dependency key refers to:
`Vision.get_resource_name` builds a vision-service name,
`Camera.get_resource_name` a camera-component name. -/
inductive ResourceKind where
  | vision : ResourceKind
  | camera : ResourceKind
deriving DecidableEq, Repr

/-- A Viam `ResourceName`, reduced to the parts this component varies:
the resource kind and the resource's own name. -/
structure ResourceName where
  kind : ResourceKind
  name : String
deriving DecidableEq, Repr

/-- `Vision.get_resource_name (name)`. -/
def visionResourceName (name : String) : ResourceName := ⟨.vision, name⟩

/-- `Camera.get_resource_name (name)`. -/
def cameraResourceName (name : String) : ResourceName := ⟨.camera, name⟩

/-- The `dependencies` mapping supplied by the host: resource name to
live resource handle (handles of opaque type `H`). -/
def Deps (H : Type) : Type := List (ResourceName × H)

/-- Python `dependencies[rn]` as a partial lookup; the caller turns
`none` into a raised `KeyError`. -/
def Deps.find? {H : Type} (deps : Deps H) (rn : ResourceName) : Option H :=
  List.lookup rn deps

/-- The mutable instance attributes of a `PeopleDetector`: the three
configuration values and the two resolved dependency handles
(`none` models an attribute that is unset or cleared). -/
structure DetectorState (H : Type) where
  camera_name : String
  vision_service : String
  confidence_value : ℚ
  vision_service_instance : Option H
  camera_instance : Option H
deriving DecidableEq, Repr

/-- The `KeyError` raised when a dependency lookup misses, carrying the
missing resource name. -/
structure DependencyKeyError where
  missing : ResourceName
deriving DecidableEq, Repr

/-- `PeopleDetector.reconfigure`: sets `camera_name`, `vision_service`
and `confidence_value` from the attribute map (defaulting the threshold
to `0.8` when `confidence_value` is absent), then resolves the vision
handle and then the camera handle from `dependencies`.  Each assignment
mutates the instance immediately, so a failed lookup raises out of the
method leaving the earlier assignments in place: the result is the
post-call instance state together with `some` raised `KeyError`, or
`none` on success. -/
def reconfigure {H : Type} (s : DetectorState H) (fields : Fields)
    (dependencies : Deps H) : DetectorState H × Option DependencyKeyError :=
  let s := { s with camera_name := (fields.item "camera_name").string_value }
  let s := { s with vision_service := (fields.item "vision_service").string_value }
  let s := { s with confidence_value :=
      match fields.get? "confidence_value" with
      | some confidence_field => confidence_field.number_value
      | none => 0.8 }
  match dependencies.find? (visionResourceName s.vision_service) with
  | none => (s, some ⟨visionResourceName s.vision_service⟩)
  | some vh =>
    let s := { s with vision_service_instance := some vh }
    match dependencies.find? (cameraResourceName s.camera_name) with
    | none => (s, some ⟨cameraResourceName s.camera_name⟩)
    | some ch => ({ s with camera_instance := some ch }, none)

/-- A detection returned by the vision service:
`d.class_name` and `d.confidence`. -/
structure Detection where
  class_name : String
  confidence : ℚ
deriving DecidableEq, Repr

/-- A Viam `SensorReading` value (the union of value types a sensor may
report). -/
inductive SensorReading where
  | int (n : ℤ) : SensorReading
  | float (q : ℚ) : SensorReading
  | bool (b : Bool) : SensorReading
  | str (s : String) : SensorReading
deriving DecidableEq, Repr

/-- The body of the `any (...)` generator in `get_readings`:
`d.class_name.lower () == "person" and d.confidence >= self.confidence_value`. -/
def detectionIsPerson (threshold : ℚ) (d : Detection) : Bool :=
  d.class_name.toLower == "person" && threshold ≤ d.confidence

/-- `PeopleDetector.get_readings`: awaits
`vision_service_instance.get_detections_from_camera (camera_name, timeout=5.0)`
— whose outcome, success with a detection list or a raised collaborator
exception of type `E`, is the `visionResult` argument — and either
reduces the detections to `{"person_detected": 1 | 0}` or re-raises the
caught exception unchanged. -/
def get_readings {H E : Type} (s : DetectorState H)
    (visionResult : Except E (List Detection)) :
    Except E (List (String × SensorReading)) :=
  match visionResult with
  | .error e => .error e
  | .ok detections =>
    let person_detected := detections.any (detectionIsPerson s.confidence_value)
    .ok [("person_detected", .int (if person_detected then 1 else 0))]

/-- The error raised by the two stub methods (`NotImplementedError`). -/
inductive MethodError where
  | notImplemented : MethodError
deriving DecidableEq, Repr

/-- A Viam `Geometry` (opaque to this component). -/
def Geometry : Type := Unit

/-- `PeopleDetector.do_command`: logs and unconditionally raises
`NotImplementedError`, touching no instance attribute. -/
def do_command {H : Type} (s : DetectorState H) (_command : Fields) :
    DetectorState H × Except MethodError Fields :=
  (s, .error .notImplemented)

/-- `PeopleDetector.get_geometries`: logs and unconditionally raises
`NotImplementedError`, touching no instance attribute. -/
def get_geometries {H : Type} (s : DetectorState H) :
    DetectorState H × Except MethodError (List Geometry) :=
  (s, .error .notImplemented)

/-- The camera name `reconfigure` reads from the attribute map. -/
def newCameraName (fields : Fields) : String :=
  (fields.item "camera_name").string_value

/-- The vision-service name `reconfigure` reads from the attribute map. -/
def newVisionService (fields : Fields) : String :=
  (fields.item "vision_service").string_value

/-- The threshold `reconfigure` resolves: the configured `number_value`
when `confidence_value` is present, else the default `0.8`. -/
def newConfidence (fields : Fields) : ℚ :=
  match fields.get? "confidence_value" with
  | some confidence_field => confidence_field.number_value
  | none => 0.8

/-! ## Supporting lemmas -/

/-- `reconfigure` when the vision-dependency lookup misses: the three
configuration attributes are already overwritten, both handles keep
their prior values, and a `KeyError` for the vision resource is raised. -/
theorem reconfigure_eq_of_vision_miss {H : Type} (s : DetectorState H)
    (fields : Fields) (deps : Deps H)
    (h : deps.find? (visionResourceName (newVisionService fields)) = none) :
    reconfigure s fields deps =
      ({ s with camera_name := newCameraName fields,
                vision_service := newVisionService fields,
                confidence_value := newConfidence fields },
       some ⟨visionResourceName (newVisionService fields)⟩) := by
  unfold reconfigure
  dsimp only
  rw [show (Deps.find? deps
      (visionResourceName (ProtoValue.string_value (Fields.item fields "vision_service"))))
      = none from h]
  rfl

/-- `reconfigure` when the vision lookup hits but the camera lookup
misses: the three configuration attributes and the vision handle are
already overwritten, the camera handle keeps its prior value, and a
`KeyError` for the camera resource is raised. -/
theorem reconfigure_eq_of_camera_miss {H : Type} (s : DetectorState H)
    (fields : Fields) (deps : Deps H) (vh : H)
    (hv : deps.find? (visionResourceName (newVisionService fields)) = some vh)
    (hc : deps.find? (cameraResourceName (newCameraName fields)) = none) :
    reconfigure s fields deps =
      ({ s with camera_name := newCameraName fields,
                vision_service := newVisionService fields,
                confidence_value := newConfidence fields,
                vision_service_instance := some vh },
       some ⟨cameraResourceName (newCameraName fields)⟩) := by
  unfold reconfigure
  dsimp only
  rw [show (Deps.find? deps
      (visionResourceName (ProtoValue.string_value (Fields.item fields "vision_service"))))
      = some vh from hv]
  rw [show (Deps.find? deps
      (cameraResourceName (ProtoValue.string_value (Fields.item fields "camera_name"))))
      = none from hc]
  rfl

/-- `reconfigure` when both lookups hit: every held attribute is
replaced with a value computed from the new inputs and no error is
raised. -/
theorem reconfigure_eq_of_hits {H : Type} (s : DetectorState H)
    (fields : Fields) (deps : Deps H) (vh ch : H)
    (hv : deps.find? (visionResourceName (newVisionService fields)) = some vh)
    (hc : deps.find? (cameraResourceName (newCameraName fields)) = some ch) :
    reconfigure s fields deps =
      ({ camera_name := newCameraName fields,
         vision_service := newVisionService fields,
         confidence_value := newConfidence fields,
         vision_service_instance := some vh,
         camera_instance := some ch }, none) := by
  unfold reconfigure
  dsimp only
  rw [show (Deps.find? deps
      (visionResourceName (ProtoValue.string_value (Fields.item fields "vision_service"))))
      = some vh from hv]
  rw [show (Deps.find? deps
      (cameraResourceName (ProtoValue.string_value (Fields.item fields "camera_name"))))
      = some ch from hc]
  rfl

/-- The threshold stored by `reconfigure` is `newConfidence fields`,
whichever way the dependency lookups turn out. -/
theorem reconfigure_confidence {H : Type} (s : DetectorState H)
    (fields : Fields) (deps : Deps H) :
    (reconfigure s fields deps).1.confidence_value = newConfidence fields := by
  cases hv : deps.find? (visionResourceName (newVisionService fields)) with
  | none => rw [reconfigure_eq_of_vision_miss s fields deps hv]
  | some vh =>
    cases hc : deps.find? (cameraResourceName (newCameraName fields)) with
    | none => rw [reconfigure_eq_of_camera_miss s fields deps vh hv hc]
    | some ch => rw [reconfigure_eq_of_hits s fields deps vh ch hv hc]

/-- Unfolding of the required-field loop at the concrete list of
required fields: the four checks run in order and the first failing one
determines the error. -/
theorem checkRequired_cases (fields : Fields) :
    checkRequiredFields fields ["camera_name", "vision_service"] =
      if ¬ fields.contains "camera_name" then .error (.missingRequired "camera_name")
      else if ¬ (fields.item "camera_name").hasStringValue then
        .error (.mustBeString "camera_name")
      else if ¬ fields.contains "vision_service" then
        .error (.missingRequired "vision_service")
      else if ¬ (fields.item "vision_service").hasStringValue then
        .error (.mustBeString "vision_service")
      else .ok () := by
  rfl

/-- `validate_config` runs the required-field loop, then the
`confidence_value` block, and on success returns
`[vision_service, camera_name]`; the first raised error is the
result. -/
theorem validate_config_eq (fields : Fields) :
    validate_config fields =
      match checkRequiredFields fields ["camera_name", "vision_service"] with
      | .error e => .error e
      | .ok _ =>
        match checkConfidenceValue fields with
        | .error e => .error e
        | .ok _ => .ok [(fields.item "vision_service").string_value,
                        (fields.item "camera_name").string_value] := by
  unfold validate_config
  cases h1 : checkRequiredFields fields ["camera_name", "vision_service"] with
  | error e => rfl
  | ok u =>
    cases h2 : checkConfidenceValue fields with
    | error e => rfl
    | ok v => rfl

/-! ## Claim theorems -/

/-- C1: for every reading request, given the detection list returned by
the vision collaborator and the configured threshold, `get_readings`
returns the one-key mapping `{"person_detected": 1}` exactly when some
detection has a class label case-insensitively equal to `"person"` and
confidence at least the threshold, and `{"person_detected": 0}`
otherwise; the value is the integer `0` or `1`, not a boolean or
float. -/
theorem get_readings_person_reduction {H E : Type} (s : DetectorState H)
    (detections : List Detection) :
    get_readings s (Except.ok detections : Except E (List Detection)) =
      Except.ok [("person_detected", SensorReading.int
        (if ∃ d ∈ detections, d.class_name.toLower = "person" ∧
            s.confidence_value ≤ d.confidence then 1 else 0))] := by
  have h : detections.any (detectionIsPerson s.confidence_value) =
      decide (∃ d ∈ detections, d.class_name.toLower = "person" ∧
        s.confidence_value ≤ d.confidence) := by
    rw [Bool.eq_iff_iff]
    simp [List.any_eq_true, detectionIsPerson]
  by_cases hP : ∃ d ∈ detections, d.class_name.toLower = "person" ∧
      s.confidence_value ≤ d.confidence
  · simp [get_readings, h, hP]
  · simp [get_readings, h, hP]

/-- C5: whenever `validate_config` succeeds, the returned dependency
list is exactly the string value of `vision_service` followed by the
string value of `camera_name`, in that order. -/
theorem validate_ok_deps (fields : Fields) (l : List String)
    (h : validate_config fields = .ok l) :
    l = [(fields.item "vision_service").string_value,
         (fields.item "camera_name").string_value] := by
  rw [validate_config_eq] at h
  cases h1 : checkRequiredFields fields ["camera_name", "vision_service"] with
  | error e => rw [h1] at h; cases h
  | ok u =>
    rw [h1] at h
    cases h2 : checkConfidenceValue fields with
    | error e => rw [h2] at h; cases h
    | ok v =>
      rw [h2] at h
      cases h
      rfl

/-- C5 witness: the sample configuration from the spec's property 3
validates to the dependency list `["vis1", "cam1"]`. -/
theorem validate_ok_deps_witness :
    (["vis1", "cam1"] : List String) =
      [(Fields.item [("camera_name", ProtoValue.stringValue "cam1"),
          ("vision_service", ProtoValue.stringValue "vis1")] "vision_service").string_value,
       (Fields.item [("camera_name", ProtoValue.stringValue "cam1"),
          ("vision_service", ProtoValue.stringValue "vis1")] "camera_name").string_value] :=
  validate_ok_deps
    [("camera_name", ProtoValue.stringValue "cam1"),
     ("vision_service", ProtoValue.stringValue "vis1")]
    ["vis1", "cam1"] rfl

/-- C6: after any `reconfigure` call, the held threshold equals the
configured `confidence_value` when that field is present with a numeric
value, and equals the default `0.8` when the field is absent. -/
theorem reconfigure_threshold_resolution {H : Type} (s : DetectorState H)
    (fields : Fields) (deps : Deps H) :
    (∀ n : ℚ, fields.get? "confidence_value" = some (.numberValue n) →
      (reconfigure s fields deps).1.confidence_value = n) ∧
    (fields.get? "confidence_value" = none →
      (reconfigure s fields deps).1.confidence_value = 0.8) := by
  constructor
  · intro n hn
    rw [reconfigure_confidence]
    simp [newConfidence, hn, ProtoValue.number_value]
  · intro hn
    rw [reconfigure_confidence]
    simp [newConfidence, hn]

/-- C6 witness: with `confidence_value` configured as `0.6` the
resulting threshold is `0.6`; with the field absent it is `0.8`
(the spec's properties 3 and 4). -/
theorem reconfigure_threshold_resolution_witness :
    (reconfigure (⟨"c", "v", 0, none, none⟩ : DetectorState Nat)
        [("camera_name", ProtoValue.stringValue "cam1"),
         ("vision_service", ProtoValue.stringValue "vis1"),
         ("confidence_value", ProtoValue.numberValue 0.6)] []).1.confidence_value = 0.6 ∧
    (reconfigure (⟨"c", "v", 0, none, none⟩ : DetectorState Nat)
        [("camera_name", ProtoValue.stringValue "cam1"),
         ("vision_service", ProtoValue.stringValue "vis1")] []).1.confidence_value = 0.8 :=
  ⟨(reconfigure_threshold_resolution _ _ _).1 0.6 rfl,
   (reconfigure_threshold_resolution _ _ _).2 rfl⟩

/-- C7: when the vision collaborator call fails, `get_readings` fails
with the very same exception: the failure propagates unchanged and is
never swallowed into a default reading. -/
theorem get_readings_propagates_failure {H E : Type} (s : DetectorState H) (e : E) :
    get_readings s (Except.error e : Except E (List Detection)) = Except.error e :=
  rfl

/-- C8: `do_command` and `get_geometries` fail with the
`NotImplementedError`-class failure on every invocation and leave the
instance state (names, threshold, handles) unchanged. -/
theorem stub_methods_fail_without_state_change {H : Type} (s : DetectorState H)
    (command : Fields) :
    do_command s command = (s, Except.error MethodError.notImplemented) ∧
    get_geometries s = (s, Except.error MethodError.notImplemented) :=
  ⟨rfl, rfl⟩

/-- C2 counterexample: reconfiguring with a dependency set missing the
vision handle raises the lookup error, yet the instance is NOT left in
its prior state — `camera_name` has already been overwritten with the
new configured name. -/
theorem reconfigure_dependency_miss_cex :
    (reconfigure (⟨"oldcam", "oldvis", 1/2, some 7, some 8⟩ : DetectorState Nat)
        [("camera_name", ProtoValue.stringValue "newcam"),
         ("vision_service", ProtoValue.stringValue "newvis")] []).2.isSome = true ∧
    (reconfigure (⟨"oldcam", "oldvis", 1/2, some 7, some 8⟩ : DetectorState Nat)
        [("camera_name", ProtoValue.stringValue "newcam"),
         ("vision_service", ProtoValue.stringValue "newvis")] []).1.camera_name = "newcam" ∧
    "newcam" ≠ "oldcam" := by
  refine ⟨rfl, rfl, by decide⟩

/-- C2 amended: when a dependency lookup misses, `reconfigure` fails
with the lookup's `KeyError`, but the instance is left partially
updated: the three configuration attributes (and, when only the camera
lookup misses, the vision handle too) already hold the new values while
the unresolved handle attributes keep their prior values — a subsequent
reading can observe a mix of new names and threshold with old
handles. -/
theorem reconfigure_dependency_miss_partial_update {H : Type} (s : DetectorState H)
    (fields : Fields) (deps : Deps H) :
    (deps.find? (visionResourceName (newVisionService fields)) = none →
      reconfigure s fields deps =
        ({ s with camera_name := newCameraName fields,
                  vision_service := newVisionService fields,
                  confidence_value := newConfidence fields },
         some ⟨visionResourceName (newVisionService fields)⟩)) ∧
    (∀ vh, deps.find? (visionResourceName (newVisionService fields)) = some vh →
      deps.find? (cameraResourceName (newCameraName fields)) = none →
      reconfigure s fields deps =
        ({ s with camera_name := newCameraName fields,
                  vision_service := newVisionService fields,
                  confidence_value := newConfidence fields,
                  vision_service_instance := some vh },
         some ⟨cameraResourceName (newCameraName fields)⟩)) :=
  ⟨fun h => reconfigure_eq_of_vision_miss s fields deps h,
   fun vh hv hc => reconfigure_eq_of_camera_miss s fields deps vh hv hc⟩

/-- C2 amended witness: with an empty dependency set, the failed call
leaves the new names and the default threshold in place and the handles
untouched. -/
theorem reconfigure_dependency_miss_partial_update_witness :
    reconfigure (⟨"c", "v", 0, some 7, some 8⟩ : DetectorState Nat)
        [("camera_name", ProtoValue.stringValue "cam1"),
         ("vision_service", ProtoValue.stringValue "vis1")] [] =
      (⟨"cam1", "vis1", 0.8, some 7, some 8⟩, some ⟨visionResourceName "vis1"⟩) :=
  (reconfigure_dependency_miss_partial_update
    (⟨"c", "v", 0, some 7, some 8⟩ : DetectorState Nat)
    [("camera_name", ProtoValue.stringValue "cam1"),
     ("vision_service", ProtoValue.stringValue "vis1")] []).1 rfl

/-- C3 counterexample: for the configuration `{camera_name: 1}`, the
required field `vision_service` is absent, yet validation reports the
type mismatch on `camera_name` — not a `MissingFieldError`. -/
theorem validate_required_cex :
    Fields.contains [("camera_name", ProtoValue.numberValue 1)] "vision_service" = false ∧
    validate_config [("camera_name", ProtoValue.numberValue 1)] =
      .error (.mustBeString "camera_name") ∧
    (ValidationError.mustBeString "camera_name").isMissingFieldError = false :=
  ⟨rfl, rfl, rfl⟩

/-- C3 amended: the required fields are checked in order `camera_name`
then `vision_service`; the first field whose check fails determines the
error — `MissingFieldError` when that field is absent,
`TypeMismatchError` when it is present but not string-typed — and
whenever a required-field check fails no dependency list is
produced. -/
theorem validate_required_field_checks (fields : Fields) :
    (fields.contains "camera_name" = false →
      validate_config fields = .error (.missingRequired "camera_name")) ∧
    (fields.contains "camera_name" = true →
      (fields.item "camera_name").hasStringValue = false →
      validate_config fields = .error (.mustBeString "camera_name")) ∧
    (fields.contains "camera_name" = true →
      (fields.item "camera_name").hasStringValue = true →
      fields.contains "vision_service" = false →
      validate_config fields = .error (.missingRequired "vision_service")) ∧
    (fields.contains "camera_name" = true →
      (fields.item "camera_name").hasStringValue = true →
      fields.contains "vision_service" = true →
      (fields.item "vision_service").hasStringValue = false →
      validate_config fields = .error (.mustBeString "vision_service")) ∧
    (checkRequiredFields fields ["camera_name", "vision_service"] ≠ .ok () →
      ∀ l, validate_config fields ≠ .ok l) := by
  have hv := validate_config_eq fields
  rw [checkRequired_cases] at hv
  refine ⟨?_, ?_, ?_, ?_, ?_⟩
  · intro h1
    rw [hv]
    simp [h1]
  · intro h1 h2
    rw [hv]
    simp [h1, h2]
  · intro h1 h2 h3
    rw [hv]
    simp [h1, h2, h3]
  · intro h1 h2 h3 h4
    rw [hv]
    simp [h1, h2, h3, h4]
  · intro hne l hl
    rw [validate_config_eq] at hl
    cases h1 : checkRequiredFields fields ["camera_name", "vision_service"] with
    | error e => rw [h1] at hl; cases hl
    | ok u => exact hne (by rw [h1])

/-- C3 amended witness: each of the four required-field failures at a
concrete configuration. -/
theorem validate_required_field_checks_witness :
    validate_config [("vision_service", ProtoValue.stringValue "vis1")] =
      .error (.missingRequired "camera_name") ∧
    validate_config [("camera_name", ProtoValue.boolValue true)] =
      .error (.mustBeString "camera_name") ∧
    validate_config [("camera_name", ProtoValue.stringValue "cam1")] =
      .error (.missingRequired "vision_service") ∧
    validate_config [("camera_name", ProtoValue.stringValue "cam1"),
        ("vision_service", ProtoValue.numberValue 3)] =
      .error (.mustBeString "vision_service") :=
  ⟨(validate_required_field_checks _).1 rfl,
   (validate_required_field_checks _).2.1 rfl rfl,
   (validate_required_field_checks _).2.2.1 rfl rfl rfl,
   (validate_required_field_checks _).2.2.2.1 rfl rfl rfl rfl⟩

/-- C4 counterexample: for the configuration
`{confidence_value: "high"}`, `confidence_value` is present and not
numeric, yet validation reports the missing `camera_name` — not a
`TypeMismatchError`. -/
theorem validate_confidence_cex :
    Fields.contains [("confidence_value", ProtoValue.stringValue "high")]
      "confidence_value" = true ∧
    (Fields.item [("confidence_value", ProtoValue.stringValue "high")]
      "confidence_value").hasNumberValue = false ∧
    validate_config [("confidence_value", ProtoValue.stringValue "high")] =
      .error (.missingRequired "camera_name") ∧
    (ValidationError.missingRequired "camera_name").isTypeMismatchError = false :=
  ⟨rfl, rfl, rfl, rfl⟩

/-- C4 amended: for every configuration whose required-field checks
pass and in which `confidence_value` is present, validation fails with
the `TypeMismatchError` `confidence_value must be a float` when the
value is not numeric, fails with the `RangeError` when the value is
numeric but outside `[0, 1]`, and succeeds when the value is numeric
and inside `[0, 1]`. -/
theorem validate_confidence_checks (fields : Fields)
    (hreq : checkRequiredFields fields ["camera_name", "vision_service"] = .ok ()) :
    (fields.contains "confidence_value" = true →
      (fields.item "confidence_value").hasNumberValue = false →
      validate_config fields = .error .confidenceMustBeFloat ∧
      ValidationError.confidenceMustBeFloat.isTypeMismatchError = true) ∧
    (fields.contains "confidence_value" = true →
      (fields.item "confidence_value").hasNumberValue = true →
      ¬ (0 ≤ (fields.item "confidence_value").number_value ∧
         (fields.item "confidence_value").number_value ≤ 1) →
      validate_config fields = .error .confidenceOutOfRange ∧
      ValidationError.confidenceOutOfRange.isRangeError = true) ∧
    (fields.contains "confidence_value" = true →
      (fields.item "confidence_value").hasNumberValue = true →
      0 ≤ (fields.item "confidence_value").number_value →
      (fields.item "confidence_value").number_value ≤ 1 →
      validate_config fields = .ok [(fields.item "vision_service").string_value,
                                    (fields.item "camera_name").string_value]) := by
  have hv := validate_config_eq fields
  rw [hreq] at hv
  refine ⟨?_, ?_, ?_⟩
  · intro h1 h2
    refine ⟨?_, rfl⟩
    rw [hv]
    simp [checkConfidenceValue, h1, h2]
  · intro h1 h2 h3
    refine ⟨?_, rfl⟩
    rw [hv]
    simp only [checkConfidenceValue, h1, h2]
    simp [h3]
  · intro h1 h2 h3 h4
    rw [hv]
    simp [checkConfidenceValue, h1, h2, h3, h4]

/-- C4 amended witness: with valid required fields, a non-numeric
threshold, an out-of-range threshold and an in-range threshold are
reported as type mismatch, range error and success respectively. -/
theorem validate_confidence_checks_witness :
    validate_config [("camera_name", ProtoValue.stringValue "cam1"),
        ("vision_service", ProtoValue.stringValue "vis1"),
        ("confidence_value", ProtoValue.stringValue "x")] =
      .error .confidenceMustBeFloat ∧
    validate_config [("camera_name", ProtoValue.stringValue "cam1"),
        ("vision_service", ProtoValue.stringValue "vis1"),
        ("confidence_value", ProtoValue.numberValue 2)] =
      .error .confidenceOutOfRange ∧
    validate_config [("camera_name", ProtoValue.stringValue "cam1"),
        ("vision_service", ProtoValue.stringValue "vis1"),
        ("confidence_value", ProtoValue.numberValue 1)] =
      .ok ["vis1", "cam1"] :=
  ⟨((validate_confidence_checks
      [("camera_name", ProtoValue.stringValue "cam1"),
       ("vision_service", ProtoValue.stringValue "vis1"),
       ("confidence_value", ProtoValue.stringValue "x")] rfl).1 rfl rfl).1,
   ((validate_confidence_checks
      [("camera_name", ProtoValue.stringValue "cam1"),
       ("vision_service", ProtoValue.stringValue "vis1"),
       ("confidence_value", ProtoValue.numberValue 2)] rfl).2.1 rfl rfl (by decide)).1,
   (validate_confidence_checks
      [("camera_name", ProtoValue.stringValue "cam1"),
       ("vision_service", ProtoValue.stringValue "vis1"),
       ("confidence_value", ProtoValue.numberValue 1)] rfl).2.2 rfl rfl
      (by decide) (by decide)⟩

/-- C9: reconfiguration is idempotent — if `reconfigure` succeeds from
state `s` producing state `s1`, running it again with the same
configuration and dependency set from `s1` succeeds and leaves the
state at `s1`. -/
theorem reconfigure_idempotent {H : Type} (s s1 : DetectorState H)
    (fields : Fields) (deps : Deps H)
    (h : reconfigure s fields deps = (s1, none)) :
    reconfigure s1 fields deps = (s1, none) := by
  cases hv : deps.find? (visionResourceName (newVisionService fields)) with
  | none =>
    rw [reconfigure_eq_of_vision_miss s fields deps hv] at h
    simp only [Prod.mk.injEq] at h
    cases h.2
  | some vh =>
    cases hc : deps.find? (cameraResourceName (newCameraName fields)) with
    | none =>
      rw [reconfigure_eq_of_camera_miss s fields deps vh hv hc] at h
      simp only [Prod.mk.injEq] at h
      cases h.2
    | some ch =>
      rw [reconfigure_eq_of_hits s fields deps vh ch hv hc] at h
      rw [reconfigure_eq_of_hits s1 fields deps vh ch hv hc]
      simp only [Prod.mk.injEq] at h
      rw [← h.1]

/-- C9 witness: a successful reconfiguration applied a second time from
its own result state reproduces that state exactly. -/
theorem reconfigure_idempotent_witness :
    reconfigure (⟨"cam1", "vis1", 0.8, some 1, some 2⟩ : DetectorState Nat)
        [("camera_name", ProtoValue.stringValue "cam1"),
         ("vision_service", ProtoValue.stringValue "vis1")]
        [(visionResourceName "vis1", 1), (cameraResourceName "cam1", 2)] =
      (⟨"cam1", "vis1", 0.8, some 1, some 2⟩, none) :=
  reconfigure_idempotent (⟨"c", "v", 0, none, none⟩ : DetectorState Nat) _ _ _ rfl

/-- C10 counterexample: the configuration `{camera_name: 1,
confidence_value: "x"}` is missing the required field `vision_service`
and has an invalid `confidence_value`, yet the reported failure is the
type mismatch on `camera_name`, not a missing-required-field error. -/
theorem validate_order_cex :
    Fields.contains [("camera_name", ProtoValue.numberValue 1),
      ("confidence_value", ProtoValue.stringValue "x")] "vision_service" = false ∧
    Fields.contains [("camera_name", ProtoValue.numberValue 1),
      ("confidence_value", ProtoValue.stringValue "x")] "confidence_value" = true ∧
    (Fields.item [("camera_name", ProtoValue.numberValue 1),
      ("confidence_value", ProtoValue.stringValue "x")]
        "confidence_value").hasNumberValue = false ∧
    validate_config [("camera_name", ProtoValue.numberValue 1),
      ("confidence_value", ProtoValue.stringValue "x")] =
      .error (.mustBeString "camera_name") ∧
    (ValidationError.mustBeString "camera_name").isMissingFieldError = false :=
  ⟨rfl, rfl, rfl, rfl, rfl⟩

/-- C10 amended: fields are checked in the fixed order `camera_name`,
`vision_service`, `confidence_value` and the first failure is reported:
for every configuration missing a required field and also carrying an
invalid `confidence_value`, the required-field loop fails, the reported
error is exactly that loop's first failure, and it is never one of the
`confidence_value` errors. -/
theorem validate_first_required_failure (fields : Fields)
    (hmiss : fields.contains "camera_name" = false ∨
      fields.contains "vision_service" = false)
    (_hconf : fields.contains "confidence_value" = true ∧
      ((fields.item "confidence_value").hasNumberValue = false ∨
       ¬ (0 ≤ (fields.item "confidence_value").number_value ∧
          (fields.item "confidence_value").number_value ≤ 1))) :
    checkRequiredFields fields ["camera_name", "vision_service"] ≠ .ok () ∧
    (∀ e, checkRequiredFields fields ["camera_name", "vision_service"] = .error e →
      validate_config fields = .error e ∧
      e ≠ .confidenceMustBeFloat ∧ e ≠ .confidenceOutOfRange) := by
  constructor
  · rw [checkRequired_cases]
    rcases hmiss with hm | hm
    · simp [hm]
    · by_cases h1 : fields.contains "camera_name" = true
      · by_cases h2 : (fields.item "camera_name").hasStringValue = true
        · simp [h1, h2, hm]
        · simp [h1, h2]
      · simp [h1]
  · intro e he
    refine ⟨by rw [validate_config_eq, he], ?_, ?_⟩
    · intro hcontra
      rw [hcontra, checkRequired_cases] at he
      by_cases h1 : fields.contains "camera_name" = true <;>
        by_cases h2 : (fields.item "camera_name").hasStringValue = true <;>
        by_cases h3 : fields.contains "vision_service" = true <;>
        by_cases h4 : (fields.item "vision_service").hasStringValue = true <;>
        simp [h1, h2, h3, h4] at he
    · intro hcontra
      rw [hcontra, checkRequired_cases] at he
      by_cases h1 : fields.contains "camera_name" = true <;>
        by_cases h2 : (fields.item "camera_name").hasStringValue = true <;>
        by_cases h3 : fields.contains "vision_service" = true <;>
        by_cases h4 : (fields.item "vision_service").hasStringValue = true <;>
        simp [h1, h2, h3, h4] at he

/-- C10 amended witness: a configuration missing both required fields
with an out-of-range `confidence_value` reports the missing
`camera_name`, not a `confidence_value` error. -/
theorem validate_first_required_failure_witness :
    validate_config [("confidence_value", ProtoValue.numberValue 2)] =
      .error (.missingRequired "camera_name") ∧
    ValidationError.missingRequired "camera_name" ≠ .confidenceMustBeFloat ∧
    ValidationError.missingRequired "camera_name" ≠ .confidenceOutOfRange :=
  (validate_first_required_failure [("confidence_value", ProtoValue.numberValue 2)]
    (Or.inl rfl) ⟨rfl, Or.inr (by decide)⟩).2 _ rfl

end PeopleDetector
